import Mathlib

/-!
Shallow embedding of `src/watcher/watcher.py`, an nginx log watcher that
tails JSON access-log lines and raises Slack alerts on pool failovers and
elevated 5xx error rates over a sliding window.

Modelling conventions:
* Python numbers arising from `json.loads` are modelled as `ℚ` (JSON ints
  and floats); timestamps (`datetime.utcnow()` values) as `ℚ` seconds.
* `json.loads` itself (the lexer) is abstracted: a raw line is given as a
  `LineContent`, i.e. the outcome of stripping and decoding the line.
* I/O (prints, the actual HTTP post) is modelled by returning the data the
  code would emit; the network outcome of `requests.post` is an explicit
  boolean input (`delivery`), since `post_slack` catches every exception.
-/

namespace Watcher

/-- A decoded JSON value, as returned by `json.loads`. -/
inductive Json where
  | null : Json
  | bool : Bool → Json
  | num : ℚ → Json
  | str : String → Json
  | arr : List Json → Json
  | obj : List (String × Json) → Json

/-- The outcome of `line.strip()` followed by `json.loads(line)` on one raw
line: empty after stripping, undecodable (raises `JSONDecodeError`), or a
decoded JSON value. -/
inductive LineContent where
  | empty : LineContent
  | invalid : LineContent
  | json : Json → LineContent

/-- Python `int()` truncates a float toward zero. -/
def truncQ (q : ℚ) : ℤ :=
  if 0 ≤ q then ⌊q⌋ else ⌈q⌉

/-- Digits of a nonempty all-digit character list, as a natural number
(helper for Python `int(str)`). -/
def digitsToNat : List Char → Option ℕ
  | [] => none
  | cs =>
    if cs.all Char.isDigit then
      some (cs.foldl (fun n c => n * 10 + (c.toNat - 48)) 0)
    else none

/-- Python `str.strip()` / `int()`-style whitespace stripping, done
structurally on the character list. -/
def stripChars (s : String) : String :=
  ⟨((s.data.dropWhile Char.isWhitespace).reverse.dropWhile Char.isWhitespace).reverse⟩

/-- Python `int(s)` on a string: strips whitespace, allows one sign, then
requires nonempty digits; anything else raises `ValueError`. -/
def parseIntStr (s : String) : Option ℤ :=
  match (stripChars s).data with
  | '-' :: rest => (digitsToNat rest).map (fun n => -(n : ℤ))
  | '+' :: rest => (digitsToNat rest).map (fun n => (n : ℤ))
  | cs => (digitsToNat cs).map (fun n => (n : ℤ))

/-- Python `int(x)` on a value produced by `json.loads`: succeeds on bools,
numbers (truncating) and integer-looking strings; raises (`TypeError` /
`ValueError`) otherwise. -/
def pyInt : Json → Option ℤ
  | .bool b => some (if b then 1 else 0)
  | .num q => some (truncQ q)
  | .str s => parseIntStr s
  | _ => none

/-- Python `x.strip()` on a value produced by `json.loads`: only strings
have `.strip`; any other value raises `AttributeError`. -/
def pyStrip : Json → Option String
  | .str s => some (stripChars s)
  | _ => none

/-- `data.get(k, dflt)` on a decoded JSON object. -/
def jsonGet (kvs : List (String × Json)) (k : String) (dflt : Json) : Json :=
  (List.lookup k kvs).getD dflt

/-- The `if not pool or pool == '-': pool = None` normalization in
`parse_log_line`. -/
def normalizePool (p : String) : Option String :=
  if p = "" ∨ p = "-" then none else some p

/-- `parse_log_line` (watcher.py lines 102-128): returns
`(status, pool, data)` on success, or `None` (modelled `none`) when the
line is empty, undecodable, not an object (`.get` raises), the status
value is not `int()`-convertible, or the pool value is not a string. -/
def parse_log_line : LineContent → Option (ℤ × Option String × Json)
  | .empty => none
  | .invalid => none
  | .json j =>
    match j with
    | .obj kvs =>
      match pyInt (jsonGet kvs "status" (.num 0)) with
      | none => none
      | some status =>
        match pyStrip (jsonGet kvs "pool" (.str "")) with
        | none => none
        | some p => some (status, normalizePool p, j)
    | _ => none

/-- Append on `collections.deque(maxlen)` (watcher.py line 36): once the
deque holds `maxlen` items, appending on the right discards the leftmost
item first. -/
def recentAppend (maxlen : ℕ) (xs : List Bool) (b : Bool) : List Bool :=
  let ys := xs ++ [b]
  ys.drop (ys.length - maxlen)

/-- The per-kind cooldown check-and-set performed at the top of
`send_failover_alert` / `send_error_rate_alert` (lines 64-72 / 83-91):
given `last_alert[kind]`, the current time and the cooldown, returns
whether the alert may fire together with the updated `last_alert[kind]`
(set to `now` on firing, left unchanged when suppressed). -/
def tryFire (last : Option ℚ) (now cooldown : ℚ) : Bool × Option ℚ :=
  match last with
  | none => (true, some now)
  | some t => if now - t < cooldown then (false, some t) else (true, some now)

/-- The `last_alert` dict (line 37): one optional timestamp per alert kind. -/
structure LastAlert where
  failover : Option ℚ
  errRate : Option ℚ

/-- `tryFire` acting on the `'failover'` slot of `last_alert`. -/
def fireFailover (st : LastAlert) (now cooldown : ℚ) : Bool × LastAlert :=
  let r := tryFire st.failover now cooldown
  (r.1, ⟨r.2, st.errRate⟩)

/-- `tryFire` acting on the `'error_rate'` slot of `last_alert`. -/
def fireErrRate (st : LastAlert) (now cooldown : ℚ) : Bool × LastAlert :=
  let r := tryFire st.errRate now cooldown
  (r.1, ⟨st.failover, r.2⟩)

/-- The configuration the watcher reads once at startup (lines 26-32). -/
structure Config where
  threshold : ℚ
  windowSize : ℕ
  cooldown : ℚ
  maintenance : Bool
  hasWebhook : Bool

/-- What became of one `post_slack` invocation. -/
inductive PostResult where
  | suppressedMaintenance : PostResult
  | noWebhook : PostResult
  | posted : Bool → PostResult

/-- One invocation of `post_slack(text, title)`: the arguments the core
passes to the notifier, what happened to them, and the payload text
actually sent to the webhook (`none` when nothing was dispatched). -/
structure Call where
  text : String
  title : Option String
  result : PostResult
  payload : Option String

/-- `post_slack` (lines 40-59): suppresses under maintenance mode, skips
when no webhook is configured, otherwise posts
`("*{title}*\n" if title else "") + text` and swallows any delivery
error (`delivery` is the outcome of `requests.post`). -/
def post_slack (cfg : Config) (delivery : Bool) (text : String) (title : Option String) : Call :=
  if cfg.maintenance then ⟨text, title, .suppressedMaintenance, none⟩
  else if cfg.hasWebhook = false then ⟨text, title, .noWebhook, none⟩
  else
    ⟨text, title, .posted delivery,
      some ((match title with | some t => "*" ++ t ++ "*\n" | none => "") ++ text)⟩

/-- Python string slicing `s[:n]` by code points (structural, so it
evaluates in the kernel). -/
def strTake (s : String) (n : ℕ) : String :=
  ⟨s.data.take n⟩

/-- The failover alert text (lines 73-75); `nowStr` stands for
`now.strftime("%Y-%m-%d %H:%M:%S")`. -/
def failoverText (old_pool new_pool sample_line nowStr : String) : String :=
  "🔄 Pool changed from *" ++ old_pool ++ "* to *" ++ new_pool ++ "*\n" ++
  "Time: " ++ nowStr ++ " UTC\n" ++
  "```" ++ strTake sample_line 500 ++ "```"

/-- `format(q, '.2f')`: round to two decimals (ties to even, as binary
floats do on decimal-exact values) and print with a two-digit fraction. -/
def roundHalfEven (q : ℚ) : ℤ :=
  let f := ⌊q⌋
  let r := q - (f : ℚ)
  if r < 1 / 2 then f
  else if 1 / 2 < r then f + 1
  else if f % 2 = 0 then f else f + 1

/-- Two-digit zero-padded fraction part for `fmt2`. -/
def pad2 (n : ℕ) : String :=
  if n < 10 then "0" ++ toString n else toString n

/-- Python `f"{q:.2f}"` on a nonnegative value. -/
def fmt2 (q : ℚ) : String :=
  let n := (roundHalfEven (q * 100)).toNat
  toString (n / 100) ++ "." ++ pad2 (n % 100)

/-- Python `f"{q}"` on a float of integral value (e.g. `2.0` prints as
`"2.0"`); the watcher only renders the configured threshold this way. -/
def fmtPyFloat (q : ℚ) : String :=
  if q.den = 1 then toString q.num ++ ".0"
  else toString q.num ++ "/" ++ toString q.den

/-- The error-rate alert text (lines 92-96). -/
def errorRateText (rate : ℚ) (total_requests error_count : ℕ) (threshold : ℚ)
    (nowStr : String) : String :=
  "⚠️ High upstream error rate detected\n" ++
  "Error Rate: *" ++ fmt2 rate ++ "%* (" ++ toString error_count ++ "/" ++
    toString total_requests ++ " requests)\n" ++
  "Threshold: " ++ fmtPyFloat threshold ++ "%\n" ++
  "Window: " ++ toString total_requests ++ " requests\n" ++
  "Time: " ++ nowStr ++ " UTC"

/-- `send_failover_alert` (lines 62-78): cooldown gate, then build the text
and hand it to `post_slack`. Returns the new `last_alert['failover']` and
the notifier calls made. -/
def send_failover_alert (cfg : Config) (last : Option ℚ) (now : ℚ) (nowStr : String)
    (old_pool new_pool sample_line : String) (delivery : Bool) :
    Option ℚ × List Call :=
  let g := tryFire last now cfg.cooldown
  if g.1 then
    (some now,
      [post_slack cfg delivery (failoverText old_pool new_pool sample_line nowStr)
        (some "🚨 Failover Detected")])
  else (g.2, [])

/-- `send_error_rate_alert` (lines 81-99): cooldown gate, then build the
text and hand it to `post_slack`. Returns the new `last_alert['error_rate']`
and the notifier calls made. -/
def send_error_rate_alert (cfg : Config) (last : Option ℚ) (now : ℚ) (nowStr : String)
    (rate : ℚ) (total_requests error_count : ℕ) (delivery : Bool) :
    Option ℚ × List Call :=
  let g := tryFire last now cfg.cooldown
  if g.1 then
    (some now,
      [post_slack cfg delivery
        (errorRateText rate total_requests error_count cfg.threshold nowStr)
        (some "🚨 High Upstream Error Rate")])
  else (g.2, [])

/-- The window-length guard and rate computation of the monitor loop
(lines 219-221): the rate `(error_count / len(recent)) * 100.0` is only
computed once `len(recent) >= max(10, WINDOW_SIZE // 4)`. -/
def currentRate (windowSize : ℕ) (xs : List Bool) : Option ℚ :=
  if max 10 (windowSize / 4) ≤ xs.length then
    some (((List.count true xs : ℚ) / (xs.length : ℚ)) * 100)
  else none

/-- The inclusive threshold comparison of the monitor loop (line 223):
`rate >= ERROR_RATE_THRESHOLD`, applied only when the rate is defined. -/
def errorRateTriggered (threshold : ℚ) (windowSize : ℕ) (xs : List Bool) : Bool :=
  match currentRate windowSize xs with
  | some rate => decide (threshold ≤ rate)
  | none => false

/-- The pool-change detection of the monitor loop (lines 209-216):
`if pool:` (Python truthiness) then `if pool != last_pool:` update and
report `(old, new)`. Returns the change event (if any) and the new
`last_pool`. -/
def observePool (pool : Option String) (last_pool : String) :
    Option (String × String) × String :=
  match pool with
  | none => (none, last_pool)
  | some p =>
    if p = "" then (none, last_pool)
    else if p ≠ last_pool then (some (last_pool, p), p)
    else (none, last_pool)

/-- The mutable state of the monitor loop (lines 35-37, 186). -/
structure MonState where
  last_pool : String
  recent : List Bool
  lastAlert : LastAlert
  request_count : ℕ

/-- One line's worth of external inputs to the monitor loop: the stripped
line's decode outcome, its raw text, the current time (as seconds and as
the formatted string `strftime` would produce), and the network outcome of
any `requests.post` made while processing it. -/
structure StepInput where
  content : LineContent
  raw : String
  now : ℚ
  nowStr : String
  delivery : Bool

/-- One iteration of the monitor loop body (lines 188-224): parse, count
the request, append the 5xx flag to the window, detect a pool change (and
possibly alert), then check the error rate (and possibly alert). The
periodic `[STATS]` print (lines 202-207) is console output only. -/
def monitorStep (cfg : Config) (st : MonState) (inp : StepInput) : MonState × List Call :=
  match parse_log_line inp.content with
  | none => (st, [])
  | some (status, pool, _) =>
    let rc := st.request_count + 1
    let is5xx : Bool := decide (500 ≤ status ∧ status ≤ 599)
    let recent := recentAppend cfg.windowSize st.recent is5xx
    let ev := observePool pool st.last_pool
    let fo : Option ℚ × List Call :=
      match ev.1 with
      | some ch =>
        send_failover_alert cfg st.lastAlert.failover inp.now inp.nowStr
          ch.1 ch.2 inp.raw inp.delivery
      | none => (st.lastAlert.failover, [])
    let er : Option ℚ × List Call :=
      match currentRate cfg.windowSize recent with
      | some rate =>
        if cfg.threshold ≤ rate then
          send_error_rate_alert cfg st.lastAlert.errRate inp.now inp.nowStr
            rate recent.length (List.count true recent) inp.delivery
        else (st.lastAlert.errRate, [])
      | none => (st.lastAlert.errRate, [])
    (⟨ev.2, recent, ⟨fo.1, er.1⟩, rc⟩, fo.2 ++ er.2)

/-- Iterating the monitor loop over a list of line inputs, collecting all
notifier calls in order. -/
def monitorRun (cfg : Config) (st : MonState) (inputs : List StepInput) :
    MonState × List Call :=
  inputs.foldl
    (fun acc inp =>
      let r := monitorStep cfg acc.1 inp
      (r.1, acc.2 ++ r.2))
    (st, [])

/-- Concrete scenario used to exercise the error-rate alert path: window
size 40 (so the minimum-sample guard is `max 10 10 = 10`), threshold 2%,
cooldown 300 s, maintenance off, webhook configured. -/
def errCfg : Config := ⟨2, 40, 300, false, true⟩

/-- The raw text of the scenario's log line (a JSON object with status 503). -/
def errRaw : String := "\x7b\"status\": 503\x7d"

/-- One scenario line: status 503, no pool field, observed at time 0. -/
def errInput : StepInput :=
  ⟨.json (.obj [("status", .num 503)]), errRaw, 0, "2026-01-01 00:00:00", true⟩

/-- The watcher's startup state: initial pool "blue", empty window, no
alerts fired yet, zero requests. -/
def errState0 : MonState := ⟨"blue", [], ⟨none, none⟩, 0⟩

end Watcher

namespace Watcher

-- quick sanity examples (kept: they document the embedding)
example : parse_log_line (.json (.obj [("status", .num 503)])) =
    some (503, none, .obj [("status", .num 503)]) := rfl

example : parse_log_line (.json (.obj [("status", .str "abc")])) = none := rfl

example : parse_log_line (.json (.obj [])) = some (0, none, .obj []) := rfl

example : parse_log_line
    (.json (.obj [("status", .num 200), ("pool", .str "green")])) =
    some (200, some "green", .obj [("status", .num 200), ("pool", .str "green")]) := rfl

end Watcher


namespace Watcher

/-! ## Helper lemmas -/

theorem strData_append (a b : String) : (a ++ b).data = a.data ++ b.data := rfl

theorem monitorRun_snoc (cfg : Config) (st : MonState) (l : List StepInput) (x : StepInput) :
    monitorRun cfg st (l ++ [x]) =
      ((monitorStep cfg (monitorRun cfg st l).1 x).1,
        (monitorRun cfg st l).2 ++ (monitorStep cfg (monitorRun cfg st l).1 x).2) := by
  simp [monitorRun, List.foldl_append]

theorem recentAppend_length (w : ℕ) (xs : List Bool) (b : Bool) :
    (recentAppend w xs b).length ≤ w := by
  simp [recentAppend]
  omega

theorem foldl_recentAppend_length (w : ℕ) (bs : List Bool) :
    ∀ acc : List Bool, acc.length ≤ w → (bs.foldl (recentAppend w) acc).length ≤ w := by
  induction bs with
  | nil => intro acc h; simpa using h
  | cons b rest ih => intro acc _; exact ih _ (recentAppend_length w acc b)

/-! ## Claims -/

/-- Claim C4: for each alert kind's cooldown gate, `tryFire(t1)` then
`tryFire(t2)` from a fresh state gives `(true, false)` when
`t2 - t1 < cooldown` and `(true, true)` when `t2 - t1 ≥ cooldown`;
`tryFire` returns true and records `now` exactly when no prior firing
exists or the elapsed time is at least the cooldown; and the two kinds'
slots in `last_alert` are independent. -/
theorem alert_gate_cooldown_spec :
    (∀ cooldown t₁ t₂ : ℚ,
      (tryFire none t₁ cooldown).1 = true ∧
      (t₂ - t₁ < cooldown → (tryFire (tryFire none t₁ cooldown).2 t₂ cooldown).1 = false) ∧
      (cooldown ≤ t₂ - t₁ → (tryFire (tryFire none t₁ cooldown).2 t₂ cooldown).1 = true)) ∧
    (∀ (last : Option ℚ) (now cooldown : ℚ),
      ((tryFire last now cooldown).1 = true ↔
        last = none ∨ ∃ t, last = some t ∧ cooldown ≤ now - t) ∧
      ((tryFire last now cooldown).1 = true → (tryFire last now cooldown).2 = some now)) ∧
    (∀ (st : LastAlert) (now cooldown : ℚ),
      (fireFailover st now cooldown).2.errRate = st.errRate ∧
      (fireErrRate st now cooldown).2.failover = st.failover) := by
  refine ⟨?_, ?_, ?_⟩
  · intro cooldown t₁ t₂
    refine ⟨rfl, ?_, ?_⟩
    · intro h
      simp [tryFire, h]
    · intro h
      simp [tryFire, not_lt.2 h]
  · intro last now cooldown
    constructor
    · cases last with
      | none => simp [tryFire]
      | some t =>
        by_cases h : now - t < cooldown
        · simp [tryFire, h, not_le.2 h]
        · simp [tryFire, h, not_lt.1 h]
    · intro hfire
      cases last with
      | none => rfl
      | some t =>
        by_cases h : now - t < cooldown
        · simp [tryFire, h] at hfire
        · simp [tryFire, h]
  · intro st now cooldown
    exact ⟨rfl, rfl⟩

/-- Witness for C4 at cooldown 300 with firings at times 0, 100, 400. -/
theorem alert_gate_cooldown_spec_witness :
    (tryFire (tryFire none 0 300).2 100 300).1 = false ∧
    (tryFire (tryFire none 0 300).2 400 300).1 = true :=
  ⟨(alert_gate_cooldown_spec.1 300 0 100).2.1 (by norm_num),
   (alert_gate_cooldown_spec.1 300 0 400).2.2 (by norm_num)⟩

/-- Claim C5: for every sequence of appends, the deque's length never
exceeds the capacity; below capacity an append just appends, and at
capacity it evicts exactly the oldest element first. -/
theorem window_bounded_fifo (w : ℕ) :
    (∀ bs : List Bool, (bs.foldl (recentAppend w) []).length ≤ w) ∧
    (∀ (xs : List Bool) (b : Bool), xs.length < w → recentAppend w xs b = xs ++ [b]) ∧
    (∀ (xs : List Bool) (b : Bool), xs.length = w → 0 < w →
      recentAppend w xs b = xs.drop 1 ++ [b]) := by
  refine ⟨fun bs => foldl_recentAppend_length w bs [] (by simp), ?_, ?_⟩
  · intro xs b h
    show List.drop ((xs ++ [b]).length - w) (xs ++ [b]) = xs ++ [b]
    rw [show (xs ++ [b]).length - w = 0 by simp; omega]
    simp
  · intro xs b h hw
    cases xs with
    | nil => simp at h; omega
    | cons a as =>
      show List.drop (((a :: as) ++ [b]).length - w) ((a :: as) ++ [b]) =
        List.drop 1 (a :: as) ++ [b]
      rw [show ((a :: as) ++ [b]).length - w = 1 by
        simp only [List.length_append, List.length_cons, List.length_nil] at h ⊢; omega]
      simp

/-- Witness for C5: capacity 3, full window `[true, false, true]`,
appending `false` evicts the oldest entry. -/
theorem window_bounded_fifo_witness :
    recentAppend 3 [true, false, true] false = [false, true, false] := by
  have h := (window_bounded_fifo 3).2.2 [true, false, true] false (by decide) (by decide)
  simpa using h

/-- Claim C6: the rate is defined exactly when the window holds at least
`max(10, capacity/4)` samples, and then equals
`100 * (count of true) / length`. -/
theorem currentRate_defined_iff (w : ℕ) (xs : List Bool) :
    ((currentRate w xs).isSome ↔ max 10 (w / 4) ≤ xs.length) ∧
    (∀ r : ℚ, currentRate w xs = some r →
      r = 100 * (List.count true xs : ℚ) / (xs.length : ℚ)) := by
  constructor
  · unfold currentRate
    split <;> simp [*]
  · intro r hr
    unfold currentRate at hr
    split at hr
    · rw [← Option.some.inj hr]
      ring
    · exact Option.noConfusion hr

/-- Witness for C6: a window of ten errors out of ten has rate 100%. -/
theorem currentRate_defined_iff_witness :
    (100 : ℚ) = 100 * (List.count true (List.replicate 10 true) : ℚ) /
      ((List.replicate 10 true).length : ℚ) :=
  (currentRate_defined_iff 40 (List.replicate 10 true)).2 100 (by norm_num [currentRate])

/-- Claim C7: observing an absent pool changes nothing and emits nothing;
a present pool that differs updates the tracked pool and emits exactly one
change event; an unchanged pool emits nothing. The last conjunct justifies
the nonemptiness hypothesis: a pool label coming out of `parse_log_line`
is never the empty string (so Python's `if pool:` truthiness test never
discards a present label in the monitor loop). -/
theorem observePool_spec :
    (∀ s : String, observePool none s = (none, s)) ∧
    (∀ p s : String, p ≠ "" → p ≠ s → observePool (some p) s = (some (s, p), p)) ∧
    (∀ p : String, observePool (some p) p = (none, p)) ∧
    (∀ (c : LineContent) (st : ℤ) (pl : Option String) (d : Json) (q : String),
      parse_log_line c = some (st, pl, d) → pl = some q → q ≠ "") := by
  refine ⟨fun s => rfl, ?_, ?_, ?_⟩
  · intro p s h1 h2
    simp [observePool, h1, h2]
  · intro p
    by_cases h : p = "" <;> simp [observePool, h]
  · intro c st pl d q hp hq
    cases c with
    | empty => exact Option.noConfusion hp
    | invalid => exact Option.noConfusion hp
    | json j =>
      cases j with
      | null => exact Option.noConfusion hp
      | bool b => exact Option.noConfusion hp
      | num n => exact Option.noConfusion hp
      | str t => exact Option.noConfusion hp
      | arr l => exact Option.noConfusion hp
      | obj kvs =>
        dsimp [parse_log_line] at hp
        cases hI : pyInt (jsonGet kvs "status" (.num 0)) with
        | none => rw [hI] at hp; exact Option.noConfusion hp
        | some stv =>
          rw [hI] at hp
          cases hS : pyStrip (jsonGet kvs "pool" (.str "")) with
          | none => rw [hS] at hp; exact Option.noConfusion hp
          | some p0 =>
            rw [hS] at hp
            have hqq : normalizePool p0 = some q := by
              have h2 := Option.some.inj hp
              rw [hq] at h2
              exact congrArg (fun r => r.2.1) h2
            unfold normalizePool at hqq
            split at hqq
            · exact Option.noConfusion hqq
            · rename_i hcond
              rw [← Option.some.inj hqq]
              intro hempty
              exact hcond (Or.inl hempty)

/-- Witness for C7: pool changes from "blue" to "green". -/
theorem observePool_spec_witness :
    observePool (some "green") "blue" = (some ("blue", "green"), "green") :=
  observePool_spec.2.1 "green" "blue" (by decide) (by decide)

/-- Claim C8: a rate exactly equal to the threshold satisfies the alert
condition (the comparison is inclusive). -/
theorem threshold_tie_triggers (th : ℚ) (w : ℕ) (xs : List Bool)
    (h : currentRate w xs = some th) : errorRateTriggered th w xs = true := by
  unfold errorRateTriggered
  rw [h]
  simp

/-- Witness for C8: threshold 100% and a window at exactly 100%. -/
theorem threshold_tie_triggers_witness :
    errorRateTriggered 100 40 (List.replicate 10 true) = true :=
  threshold_tie_triggers 100 40 (List.replicate 10 true) (by norm_num [currentRate])

/-- Claim C1 (counterexample): a JSON object with no status field at all
does not yield a null result — `parse_log_line` defaults the missing
status to 0 and returns a record. -/
theorem parse_missing_status_counterexample :
    parse_log_line (.json (.obj [])) = some (0, none, Json.obj []) := rfl

/-- Claim C1 (amended): `parse_log_line` returns null for empty or
undecodable lines, and when a status field is present but not
`int()`-convertible; a missing status field instead defaults to 0 and
yields a record (subject to the pool field being a string). -/
theorem parse_status_error_handling :
    parse_log_line .empty = none ∧
    parse_log_line .invalid = none ∧
    (∀ (kvs : List (String × Json)) (v : Json),
      List.lookup "status" kvs = some v → pyInt v = none →
      parse_log_line (.json (.obj kvs)) = none) ∧
    (∀ kvs : List (String × Json),
      List.lookup "status" kvs = none →
      parse_log_line (.json (.obj kvs)) =
        (pyStrip (jsonGet kvs "pool" (.str ""))).map
          (fun p => (0, normalizePool p, Json.obj kvs))) := by
  refine ⟨rfl, rfl, ?_, ?_⟩
  · intro kvs v hv hnone
    simp [parse_log_line, jsonGet, hv, hnone]
  · intro kvs hnone
    cases hps : pyStrip ((List.lookup "pool" kvs).getD (Json.str "")) with
    | none => simp [parse_log_line, jsonGet, hnone, pyInt, truncQ, hps]
    | some p => simp [parse_log_line, jsonGet, hnone, pyInt, truncQ, hps]

/-- Witness for C1 (amended): a non-numeric status yields null; a missing
status yields a record with status 0. -/
theorem parse_status_error_handling_witness :
    parse_log_line (.json (.obj [("status", Json.str "nope")])) = none ∧
    parse_log_line (.json (.obj [])) = some (0, none, Json.obj []) := by
  constructor
  · exact parse_status_error_handling.2.2.1 [("status", Json.str "nope")] (Json.str "nope") rfl rfl
  · have h := parse_status_error_handling.2.2.2 [] rfl
    simpa [pyStrip, stripChars, jsonGet, normalizePool] using h

/-- Claim C3 (counterexample): a record carrying its pool label only under
an alternate field name (here `x_app_pool`, the upstream header the code
comment mentions) is parsed with no pool at all — no second field name is
consulted. -/
theorem pool_alternate_name_counterexample :
    parse_log_line (.json (.obj [("status", .num 503), ("x_app_pool", .str "green")])) =
      some (503, none, .obj [("status", .num 503), ("x_app_pool", .str "green")]) := rfl

/-- Claim C3 (amended): the pool label is looked up under exactly one field
name, `pool`: the status/pool outcome of parsing depends only on the
`status` and `pool` keys of the object. -/
theorem pool_lookup_single_field (kvs₁ kvs₂ : List (String × Json))
    (hs : List.lookup "status" kvs₁ = List.lookup "status" kvs₂)
    (hp : List.lookup "pool" kvs₁ = List.lookup "pool" kvs₂) :
    (parse_log_line (.json (.obj kvs₁))).map (fun r => (r.1, r.2.1)) =
    (parse_log_line (.json (.obj kvs₂))).map (fun r => (r.1, r.2.1)) := by
  simp only [parse_log_line, jsonGet, hs, hp]
  cases pyInt ((List.lookup "status" kvs₂).getD (Json.num 0)) with
  | none => rfl
  | some st =>
    cases pyStrip ((List.lookup "pool" kvs₂).getD (Json.str "")) with
    | none => rfl
    | some p => rfl

/-- Witness for C3 (amended): adding an unrelated field does not change
the parsed status/pool outcome. -/
theorem pool_lookup_single_field_witness :
    (parse_log_line (.json (.obj [("status", Json.num 1)]))).map (fun r => (r.1, r.2.1)) =
    (parse_log_line (.json (.obj [("status", Json.num 1), ("other", Json.str "x")]))).map
      (fun r => (r.1, r.2.1)) :=
  pool_lookup_single_field [("status", Json.num 1)]
    [("status", Json.num 1), ("other", Json.str "x")] rfl rfl

/-- Claim C9: a notifier delivery failure is non-fatal and does not reset
the cooldown: once the gate grants an alert, `last_alert` for that kind is
set to the firing time no matter how delivery goes, and a same-kind alert
within the cooldown is still suppressed. -/
theorem notify_failure_nonfatal (cfg : Config) (last : Option ℚ) (now : ℚ)
    (nowStr : String) (rate : ℚ) (total errs : ℕ) (oldp newp sample : String)
    (hfire : (tryFire last now cfg.cooldown).1 = true) :
    (∀ d : Bool, (send_error_rate_alert cfg last now nowStr rate total errs d).1 = some now) ∧
    (∀ d : Bool, (send_failover_alert cfg last now nowStr oldp newp sample d).1 = some now) ∧
    (∀ (d : Bool) (t₂ : ℚ), t₂ - now < cfg.cooldown →
      (tryFire (send_error_rate_alert cfg last now nowStr rate total errs d).1 t₂
        cfg.cooldown).1 = false) := by
  refine ⟨?_, ?_, ?_⟩
  · intro d
    simp [send_error_rate_alert, hfire]
  · intro d
    simp [send_failover_alert, hfire]
  · intro d t₂ h
    have h1 : (send_error_rate_alert cfg last now nowStr rate total errs d).1 = some now := by
      simp [send_error_rate_alert, hfire]
    rw [h1]
    simp [tryFire, h]

/-- Witness for C9: with an open gate, a failed post (`delivery = false`)
and a successful post record the same cooldown timestamp, and the next
attempt 100 s later is suppressed. -/
theorem notify_failure_nonfatal_witness :
    (send_error_rate_alert ⟨2, 200, 300, false, true⟩ none 0 "t" 100 10 10 false).1 = some 0 ∧
    (send_error_rate_alert ⟨2, 200, 300, false, true⟩ none 0 "t" 100 10 10 true).1 = some 0 ∧
    (tryFire (send_error_rate_alert ⟨2, 200, 300, false, true⟩ none 0 "t" 100 10 10 false).1
      100 300).1 = false :=
  ⟨(notify_failure_nonfatal ⟨2, 200, 300, false, true⟩ none 0 "t" 100 10 10 "a" "b" "c" rfl).1
      false,
   (notify_failure_nonfatal ⟨2, 200, 300, false, true⟩ none 0 "t" 100 10 10 "a" "b" "c" rfl).1
      true,
   (notify_failure_nonfatal ⟨2, 200, 300, false, true⟩ none 0 "t" 100 10 10 "a" "b" "c" rfl).2.2
      false 100 (by norm_num)⟩

/-- Claim C10: under maintenance mode an alert that passes the gate still
records `now` in `last_alert` even though nothing is dispatched to the
webhook, so same-kind alerts stay suppressed for the full cooldown. -/
theorem maintenance_mode_consumes_cooldown (cfg : Config) (last : Option ℚ) (now : ℚ)
    (nowStr : String) (rate : ℚ) (total errs : ℕ) (oldp newp sample : String)
    (hm : cfg.maintenance = true)
    (hfire : (tryFire last now cfg.cooldown).1 = true) :
    (∀ d : Bool,
      (send_error_rate_alert cfg last now nowStr rate total errs d).1 = some now ∧
      (send_error_rate_alert cfg last now nowStr rate total errs d).2.map Call.payload
        = [none]) ∧
    (∀ d : Bool,
      (send_failover_alert cfg last now nowStr oldp newp sample d).1 = some now ∧
      (send_failover_alert cfg last now nowStr oldp newp sample d).2.map Call.payload
        = [none]) ∧
    (∀ t₂ : ℚ, t₂ - now < cfg.cooldown → (tryFire (some now) t₂ cfg.cooldown).1 = false) := by
  refine ⟨?_, ?_, ?_⟩
  · intro d
    constructor
    · simp [send_error_rate_alert, hfire]
    · simp [send_error_rate_alert, post_slack, hm, hfire]
  · intro d
    constructor
    · simp [send_failover_alert, hfire]
    · simp [send_failover_alert, post_slack, hm, hfire]
  · intro t₂ h
    simp [tryFire, h]

/-- Witness for C10: maintenance mode on, gate open at time 0: the
timestamp is recorded, the payload is never dispatched, and a retry at
time 100 is suppressed. -/
theorem maintenance_mode_consumes_cooldown_witness :
    (send_error_rate_alert ⟨2, 200, 300, true, true⟩ none 0 "t" 100 10 10 true).1 = some 0 ∧
    (send_error_rate_alert ⟨2, 200, 300, true, true⟩ none 0 "t" 100 10 10 true).2.map
      Call.payload = [none] ∧
    (tryFire (some 0) 100 300).1 = false :=
  ⟨((maintenance_mode_consumes_cooldown ⟨2, 200, 300, true, true⟩ none 0 "t" 100 10 10
      "a" "b" "c" rfl rfl).1 true).1,
   ((maintenance_mode_consumes_cooldown ⟨2, 200, 300, true, true⟩ none 0 "t" 100 10 10
      "a" "b" "c" rfl rfl).1 true).2,
   (maintenance_mode_consumes_cooldown ⟨2, 200, 300, true, true⟩ none 0 "t" 100 10 10
      "a" "b" "c" rfl rfl).2.2 100 (by norm_num)⟩

set_option maxHeartbeats 1000000 in
set_option maxRecDepth 10000 in
/-- Claim C2 (counterexample): feeding ten `status 503` lines fires exactly
one error-rate alert whose message is built from the rate, window size,
error count, threshold and time only — the triggering raw log line (the
ten most recent raw lines are ten copies of it) appears nowhere in it. The
monitor keeps no buffer of raw lines at all. -/
theorem errorRate_alert_omits_raw_lines :
    ((monitorRun errCfg errState0 (List.replicate 10 errInput)).2.map Call.text
        = [errorRateText 100 10 10 2 "2026-01-01 00:00:00"]) ∧
    ¬ (errRaw.data <:+: (errorRateText 100 10 10 2 "2026-01-01 00:00:00").data) := by
  have h9 : monitorRun errCfg errState0 (List.replicate 9 errInput) =
      (⟨"blue", List.replicate 9 true, ⟨none, none⟩, 9⟩, []) := rfl
  have hstep : monitorStep errCfg ⟨"blue", List.replicate 9 true, ⟨none, none⟩, 9⟩ errInput =
      (⟨"blue", List.replicate 10 true, ⟨none, some 0⟩, 10⟩,
        [⟨errorRateText 100 10 10 2 "2026-01-01 00:00:00",
          some "🚨 High Upstream Error Rate", .posted true,
          some ("*🚨 High Upstream Error Rate*\n" ++
            errorRateText 100 10 10 2 "2026-01-01 00:00:00")⟩]) := by
    simp [monitorStep, parse_log_line, pyInt, truncQ, jsonGet, pyStrip,
      stripChars, normalizePool, recentAppend, tryFire, send_error_rate_alert,
      send_failover_alert, post_slack, observePool, currentRate, errCfg, errInput,
      List.replicate, List.lookup, Option.getD]
    norm_num
  have h10 : List.replicate 10 errInput = List.replicate 9 errInput ++ [errInput] :=
    List.replicate_succ' 9 errInput
  constructor
  · rw [h10, monitorRun_snoc, h9]
    show List.map Call.text
        ([] ++ (monitorStep errCfg ⟨"blue", List.replicate 9 true, ⟨none, none⟩, 9⟩
          errInput).2)
      = [errorRateText 100 10 10 2 "2026-01-01 00:00:00"]
    rw [hstep]
    rfl
  · have h1 : fmt2 100 = "100.00" := by
      norm_num [fmt2, roundHalfEven, pad2]
      decide
    have h2 : fmtPyFloat 2 = "2.0" := by
      norm_num [fmtPyFloat]
      decide
    simp only [errorRateText, h1, h2]
    decide

/-- Claim C2 (amended): the error-rate alert message contains the
formatted rate, the window size, and the error count (the threshold and
time as well); it is a function of those values alone and carries no raw
log lines. -/
theorem errorRate_message_fields (rate : ℚ) (total errs : ℕ) (th : ℚ) (nowStr : String) :
    ((fmt2 rate).data <:+: (errorRateText rate total errs th nowStr).data) ∧
    ((toString total).data <:+: (errorRateText rate total errs th nowStr).data) ∧
    ((toString errs).data <:+: (errorRateText rate total errs th nowStr).data) := by
  refine ⟨?_, ?_, ?_⟩
  · exact ⟨("⚠️ High upstream error rate detected\n" ++ "Error Rate: *").data,
      ("%* (" ++ toString errs ++ "/" ++ toString total ++ " requests)\n" ++ "Threshold: " ++
        fmtPyFloat th ++ "%\n" ++ "Window: " ++ toString total ++ " requests\n" ++
        "Time: " ++ nowStr ++ " UTC").data, by
      simp only [errorRateText, strData_append, List.append_assoc]⟩
  · exact ⟨("⚠️ High upstream error rate detected\n" ++ "Error Rate: *" ++ fmt2 rate ++
        "%* (" ++ toString errs ++ "/").data,
      (" requests)\n" ++ "Threshold: " ++ fmtPyFloat th ++ "%\n" ++ "Window: " ++
        toString total ++ " requests\n" ++ "Time: " ++ nowStr ++ " UTC").data, by
      simp only [errorRateText, strData_append, List.append_assoc]⟩
  · exact ⟨("⚠️ High upstream error rate detected\n" ++ "Error Rate: *" ++ fmt2 rate ++
        "%* (").data,
      ("/" ++ toString total ++ " requests)\n" ++ "Threshold: " ++ fmtPyFloat th ++ "%\n" ++
        "Window: " ++ toString total ++ " requests\n" ++ "Time: " ++ nowStr ++ " UTC").data, by
      simp only [errorRateText, strData_append, List.append_assoc]⟩

end Watcher
